import Mathlib

/-!
Verification development for a temperature-history analysis tool
(`src/utils/analysis.py`, `src/utils/sync_monitoring.py`,
`src/utils/async_monitoring.py`, `src/app.py`).

Modelling conventions:
* Python floats are embedded as exact rationals (`ℚ`); the claims under
  study are about decimal-valued inputs where float rounding is
  immaterial to every comparison and classification involved.
* A float `NaN` (which in the source arises only from the sample standard
  deviation of fewer than two observations, and from arithmetic on such a
  NaN) is embedded as `Option.none`; IEEE comparison semantics
  (`x < NaN = false`, `x > NaN = false`) are embedded by `ltOpt`/`gtOpt`.
* `pandas.Series.std` / rolling `.std()` use `ddof = 1` (sample standard
  deviation), which is NaN for fewer than two observations.  Since a
  square root of a positive rational need not be rational, functions that
  consume a standard deviation take it as an explicit argument, and the
  theorems characterize it by the predicate `IsSampleStd` (nonnegative,
  squaring to the sample variance, `none` exactly when the variance is
  undefined).  The variance itself is computed from the formula in the source.
-/

namespace TempAnalysis

/-- Arithmetic mean of a list of rationals (`pandas` `.mean()`); the
source only applies it to nonempty lists. -/
def listMean (xs : List ℚ) : ℚ := xs.sum / (xs.length : ℚ)

/-- Sample variance with `ddof = 1` (the square of `pandas` `.std()`):
`Σ (x - mean)² / (n - 1)`, undefined (NaN, here `none`) for fewer than
two observations. -/
def sampleVar (xs : List ℚ) : Option ℚ :=
  if 2 ≤ xs.length then
    some ((xs.map (fun x => (x - listMean xs) ^ 2)).sum / ((xs.length : ℚ) - 1))
  else none

/-- Predicate: `s` is the sample standard deviation of `xs` as computed by
`pandas` `.std()`: `none` (NaN) when the sample variance is undefined
(fewer than two observations), otherwise the nonnegative square root of
the sample variance. -/
def IsSampleStd (xs : List ℚ) (s : Option ℚ) : Prop :=
  (sampleVar xs = none → s = none) ∧
  (∀ v : ℚ, sampleVar xs = some v → ∃ r : ℚ, 0 ≤ r ∧ r ^ 2 = v ∧ s = some r)

/-- Round-half-to-even to an integer (the tie rule of Python `round`). -/
def roundHalfEven (x : ℚ) : ℤ :=
  if x - ⌊x⌋ < 1 / 2 then ⌊x⌋
  else if 1 / 2 < x - ⌊x⌋ then ⌊x⌋ + 1
  else if 2 ∣ ⌊x⌋ then ⌊x⌋ else ⌊x⌋ + 1

/-- Python `round(x, 2)` on the exact rational value. -/
def round2 (x : ℚ) : ℚ := (roundHalfEven (x * 100) : ℚ) / 100

/-- Comparison `x < y` where `y` may be NaN (`none`): any comparison against NaN is
false, as in IEEE float semantics used by `pandas`/`numpy`. -/
def ltOpt (x : ℚ) (y : Option ℚ) : Bool :=
  match y with
  | some b => decide (x < b)
  | none => false

/-- Comparison `x > y` where `y` may be NaN (`none`): false when `y` is NaN. -/
def gtOpt (x : ℚ) (y : Option ℚ) : Bool :=
  match y with
  | some b => decide (b < x)
  | none => false

/-- The columns of one row consumed by `detect_anomalies`
(`src/utils/analysis.py`): the temperature and the centered rolling
statistics, which are NaN (`none`) near the window edges. -/
structure StatRow where
  temperature : ℚ
  rolling_mean : Option ℚ
  rolling_std : Option ℚ
deriving DecidableEq

/-- One output row of `detect_anomalies`: the input columns plus the
±2σ bounds and the anomaly classification. -/
structure AnomalyRow where
  temperature : ℚ
  rolling_mean : Option ℚ
  rolling_std : Option ℚ
  upper_bound : Option ℚ
  lower_bound : Option ℚ
  is_anomaly : Bool
  anomaly_type : String
deriving DecidableEq

/-- Row-wise body of `detect_anomalies` (`src/utils/analysis.py`, lines
30–48): `upper_bound = rolling_mean + 2·rolling_std`,
`lower_bound = rolling_mean - 2·rolling_std` (NaN when either statistic
is NaN), `is_anomaly = (t > upper) | (t < lower)`, and
`anomaly_type = np.where(t > upper, "positive",
np.where(t < lower, "negative", "normal"))`; NaN comparisons are false. -/
def detectRow (r : StatRow) : AnomalyRow :=
  let ub : Option ℚ :=
    match r.rolling_mean, r.rolling_std with
    | some m, some s => some (m + 2 * s)
    | _, _ => none
  let lb : Option ℚ :=
    match r.rolling_mean, r.rolling_std with
    | some m, some s => some (m - 2 * s)
    | _, _ => none
  { temperature := r.temperature
    rolling_mean := r.rolling_mean
    rolling_std := r.rolling_std
    upper_bound := ub
    lower_bound := lb
    is_anomaly := gtOpt r.temperature ub || ltOpt r.temperature lb
    anomaly_type :=
      if gtOpt r.temperature ub then "positive"
      else if ltOpt r.temperature lb then "negative"
      else "normal" }

/-- Function `detect_anomalies` over a table, row by row (the `pandas` column
operations in the source are elementwise). -/
def detect_anomalies (rows : List StatRow) : List AnomalyRow :=
  rows.map detectRow

/-- The columns of one historical row consumed by
`analyze_temperature_anomaly`: city, season tag, temperature. -/
structure ObsRow where
  city : String
  season : String
  temperature : ℚ
deriving DecidableEq

/-- The month-to-season dictionary lookup
`month_to_season.get(current_month, "winter")` of
`src/utils/sync_monitoring.py` (lines 54–60; identical in
`src/utils/async_monitoring.py` and `src/app.py`): months 12, 1, 2 map
to winter, 3–5 to spring, 6–8 to summer, 9–11 to autumn, and `.get`
returns the default `"winter"` for any key outside the dictionary. -/
def month_to_season (m : ℕ) : String :=
  if m = 12 ∨ m = 1 ∨ m = 2 then "winter"
  else if m = 3 ∨ m = 4 ∨ m = 5 then "spring"
  else if m = 6 ∨ m = 7 ∨ m = 8 then "summer"
  else if m = 9 ∨ m = 10 ∨ m = 11 then "autumn"
  else "winter"

/-- The temperatures of the rows surviving the two filters of
`analyze_temperature_anomaly`: first `historical_df["city"] == city_name`,
then `season == current_season` for the season of the given month. -/
def seasonTemps (cityName : String) (hist : List ObsRow) (month : ℕ) : List ℚ :=
  (((hist.filter (fun r => r.city == cityName)).filter
      (fun r => r.season == month_to_season month)).map (fun r => r.temperature))

/-- The result dictionary of `analyze_temperature_anomaly`
(`src/utils/sync_monitoring.py`, lines 94–105).  Fields that can be NaN
(everything derived from the possibly-NaN standard deviation) are
`Option ℚ`. -/
structure Verdict where
  city : String
  current_temperature : ℚ
  season : String
  historical_mean : ℚ
  historical_std : Option ℚ
  normal_range : Option ℚ × Option ℚ
  is_anomaly : Bool
  anomaly_type : Option String
  temperature_zone : String
  deviation_from_mean : ℚ
deriving DecidableEq

/-- Function `analyze_temperature_anomaly` (`src/utils/sync_monitoring.py`, lines
39–105; `src/utils/async_monitoring.py` lines 58–124 are textually
identical).  The wall-clock month (`datetime.now().month`) is passed as
an argument, and the sample standard deviation `std_temp` of the filtered
temperatures is passed as an argument (theorems characterize it by
`IsSampleStd (seasonTemps cityName hist month) stdTemp`): it is `none`
(NaN) for a single-row season, in which case the bounds are NaN and all
comparisons against them are false.  The temperature-zone strings are
those of the source: "Ниже среднего" = below average, "Выше среднего" = above
average, "В пределах нормы" = within normal. -/
def analyze_temperature_anomaly (cityName : String) (currentTemp : ℚ)
    (hist : List ObsRow) (month : ℕ) (stdTemp : Option ℚ) :
    Except String Verdict :=
  let temps := seasonTemps cityName hist month
  if temps.length = 0 then Except.error "Нет исторических данных для анализа"
  else
    let meanTemp := listMean temps
    let lb : Option ℚ := stdTemp.map (fun s => meanTemp - 2 * s)
    let ub : Option ℚ := stdTemp.map (fun s => meanTemp + 2 * s)
    let anomaly := ltOpt currentTemp lb || gtOpt currentTemp ub
    Except.ok
      { city := cityName
        current_temperature := currentTemp
        season := month_to_season month
        historical_mean := round2 meanTemp
        historical_std := stdTemp.map round2
        normal_range := (lb.map round2, ub.map round2)
        is_anomaly := anomaly
        anomaly_type :=
          if anomaly then
            if ltOpt currentTemp lb then some "negative" else some "positive"
          else none
        temperature_zone :=
          if ltOpt currentTemp (stdTemp.map (fun s => meanTemp - s)) then
            "Ниже среднего"
          else if gtOpt currentTemp (stdTemp.map (fun s => meanTemp + s)) then
            "Выше среднего"
          else "В пределах нормы"
        deviation_from_mean := round2 (currentTemp - meanTemp) }

/-- The columns of one row consumed by `calculate_long_term_trends`:
city, calendar year, temperature. -/
structure YearRow where
  city : String
  year : ℤ
  temperature : ℚ
deriving DecidableEq

/-- One row of the trend table built by `calculate_long_term_trends`.
The trend classes are the string constants of the source: "Сильный рост" = strong
warming, "Умеренный рост" = moderate warming, "Сильное снижение" =
strong cooling, "Умеренное снижение" = moderate cooling, "Стабильный" =
stable. -/
structure TrendRow where
  city : String
  trend_slope : ℚ
  trend_class : String
  avg_temperature : ℚ
  temperature_range : ℚ
deriving DecidableEq

/-- Distinct elements in order of first appearance
(`pandas` `Series.unique()`). -/
def uniqueFirst {α : Type} [DecidableEq α] (l : List α) : List α :=
  l.foldl (fun acc x => if x ∈ acc then acc else acc ++ [x]) []

/-- Insert into a sorted list of integers (ascending). -/
def insertSorted (x : ℤ) : List ℤ → List ℤ
  | [] => [x]
  | y :: ys => if x ≤ y then x :: y :: ys else y :: insertSorted x ys

/-- Ascending insertion sort on integers (`pandas` `groupby` sorts the
group keys ascending). -/
def sortInt (l : List ℤ) : List ℤ := l.foldr insertSorted []

/-- Aggregation `city_df.groupby("year")["temperature"].mean()` for one city: the
points `(year, mean temperature of that year)`, one per distinct year of
the rows of the city, in ascending year order. -/
def cityYearlyMeans (rows : List YearRow) (c : String) : List (ℚ × ℚ) :=
  let cityRows := rows.filter (fun r => r.city == c)
  (sortInt (uniqueFirst (cityRows.map (fun r => r.year)))).map
    (fun y : ℤ => ((y : ℚ),
      listMean ((cityRows.filter (fun r => r.year == y)).map
        (fun r => r.temperature))))

/-- Embedding of `np.polyfit(x, y, 1)` as `(slope, intercept)`.  For two or more
points the least-squares problem is full rank (the x-values in the source are
distinct years) and the fit is the classical closed form.  For a single
point `(x, y)` the system is underdetermined: `np.polyfit` only emits a
`RankWarning` (it does not raise) and `lstsq` returns the minimum-norm
solution of the column-scaled system — columns of `[[x, 1]]` are scaled
by their norms `(|x|, 1)`, giving slope `y / (2x)`, intercept `y / 2`
(years are nonzero, so the scale is nonsingular). -/
def polyfit1 (pts : List (ℚ × ℚ)) : ℚ × ℚ :=
  match pts with
  | [(x, y)] => (y / (2 * x), y / 2)
  | _ =>
    let n : ℚ := pts.length
    let sx := (pts.map Prod.fst).sum
    let sy := (pts.map Prod.snd).sum
    let sxx := (pts.map (fun p => p.1 * p.1)).sum
    let sxy := (pts.map (fun p => p.1 * p.2)).sum
    let slope := (n * sxy - sx * sy) / (n * sxx - sx * sx)
    (slope, (sy - slope * sx) / n)

/-- The trend classification chain of `calculate_long_term_trends`
(`src/utils/analysis.py`, lines 76–85), evaluated in source order with
the first matching branch winning. -/
def classifyTrend (slope : ℚ) : String :=
  if slope > 1 / 10 then "Сильный рост"
  else if slope > 1 / 100 then "Умеренный рост"
  else if slope < -(1 / 10) then "Сильное снижение"
  else if slope < -(1 / 100) then "Умеренное снижение"
  else "Стабильный"

/-- Maximum of a list of rationals (`pandas` `.max()`; the source only
applies it to nonempty lists). -/
def maxList : List ℚ → ℚ
  | [] => 0
  | x :: xs => xs.foldl max x

/-- Minimum of a list of rationals (`pandas` `.min()`). -/
def minList : List ℚ → ℚ
  | [] => 0
  | x :: xs => xs.foldl min x

/-- Function `calculate_long_term_trends` (`src/utils/analysis.py`, lines 51–95):
one output row per distinct city (first-appearance order), with the
fitted slope over the yearly means, its classification, and the mean and
max−min range of the yearly means. -/
def calculate_long_term_trends (rows : List YearRow) : List TrendRow :=
  (uniqueFirst (rows.map (fun r => r.city))).map (fun c =>
    let pts := cityYearlyMeans rows c
    let slope := (polyfit1 pts).1
    let ys := pts.map Prod.snd
    { city := c
      trend_slope := slope
      trend_class := classifyTrend slope
      avg_temperature := listMean ys
      temperature_range := maxList ys - minList ys })

/-- The observation window of
`rolling(window=w, center=True)` at output position `i` of an `n`-item
series, following the fixed-window indexer of `pandas`: with
`offset = (w-1)/2` (integer division) the window covers input indices
`[i+1+offset-w, i+1+offset)` clipped to the series; with the default
`min_periods = window` the statistic is defined (`some slice`) exactly
when the unclipped window fits inside the series. -/
def rollingSlice (xs : List ℚ) (w i : ℕ) : Option (List ℚ) :=
  let offset := (w - 1) / 2
  if w ≤ i + 1 + offset ∧ i + 1 + offset ≤ xs.length then
    some ((xs.drop (i + 1 + offset - w)).take w)
  else none

/-- Statistic `rolling(window=w, center=True).mean()` at position `i`
(`calculate_moving_stats`, `src/utils/analysis.py` lines 15–18):
NaN (`none`) where the window does not fit. -/
def rollingMeanAt (xs : List ℚ) (w i : ℕ) : Option ℚ :=
  (rollingSlice xs w i).map listMean

/-- The sample variance of the window of
`rolling(window=w, center=True).std()` at position `i`
(`calculate_moving_stats`, lines 20–23): the rolling standard deviation
is the square root of this, and is NaN (`none`) exactly where this is —
where the window does not fit, or when `w < 2` (sample statistics with
`ddof = 1` need two observations). -/
def rollingVarAt (xs : List ℚ) (w i : ℕ) : Option ℚ :=
  (rollingSlice xs w i).bind sampleVar

/-- Fixed historical table used to instantiate several theorems:
winter temperatures −5, 0, 5 for city "X", with mean 0 and sample
standard deviation 5 (sample variance 25). -/
def histX : List ObsRow :=
  [⟨"X", "winter", -5⟩, ⟨"X", "winter", 0⟩, ⟨"X", "winter", 5⟩]

/-- Historical table with a single winter row for city "X": its
seasonal sample standard deviation is undefined (NaN). -/
def histOne : List ObsRow := [⟨"X", "winter", 0⟩]

/-- Daily rows for city "A" whose yearly means are
`{2000: 10, 2001: 11, 2002: 12}` while the raw daily range is
16 − 8 = 8. -/
def histYears : List YearRow :=
  [⟨"A", 2000, 9⟩, ⟨"A", 2000, 11⟩, ⟨"A", 2001, 11⟩, ⟨"A", 2001, 11⟩,
   ⟨"A", 2002, 8⟩, ⟨"A", 2002, 16⟩]

/-- C1: every row produced by `detect_anomalies` satisfies the anomaly
invariant.  With both rolling statistics present (and the standard
deviation nonnegative, as a rolling standard deviation always is):
`upper_bound = rolling_mean + 2·rolling_std`,
`lower_bound = rolling_mean − 2·rolling_std`,
`anomaly_type = "positive"` iff the temperature exceeds the upper bound,
`"negative"` iff it is below the lower bound, `"normal"` otherwise, and
`is_anomaly` iff the type is not `"normal"`.  With either statistic NaN
(`none`), the bounds are NaN, `is_anomaly` is false and the type is
`"normal"`. -/
theorem detect_anomalies_invariant (rows : List StatRow) (out : AnomalyRow)
    (hmem : out ∈ detect_anomalies rows)
    (hstd : ∀ s : ℚ, out.rolling_std = some s → 0 ≤ s) :
    (∀ m s : ℚ, out.rolling_mean = some m → out.rolling_std = some s →
      out.upper_bound = some (m + 2 * s) ∧
      out.lower_bound = some (m - 2 * s) ∧
      (out.anomaly_type = "positive" ↔ m + 2 * s < out.temperature) ∧
      (out.anomaly_type = "negative" ↔ out.temperature < m - 2 * s) ∧
      (out.anomaly_type = "normal" ↔
        (m - 2 * s ≤ out.temperature ∧ out.temperature ≤ m + 2 * s)) ∧
      (out.is_anomaly = true ↔ out.anomaly_type ≠ "normal")) ∧
    ((out.rolling_mean = none ∨ out.rolling_std = none) →
      out.upper_bound = none ∧ out.lower_bound = none ∧
      out.is_anomaly = false ∧ out.anomaly_type = "normal") := by
  rw [detect_anomalies, List.mem_map] at hmem
  obtain ⟨r, -, rfl⟩ := hmem
  obtain ⟨t, rm, rs⟩ := r
  cases rm with
  | none =>
    cases rs with
    | none => exact ⟨fun m s hm _ => absurd hm (by simp [detectRow]),
        fun _ => by simp [detectRow, gtOpt, ltOpt]⟩
    | some s0 => exact ⟨fun m s hm _ => absurd hm (by simp [detectRow]),
        fun _ => by simp [detectRow, gtOpt, ltOpt]⟩
  | some m0 =>
    cases rs with
    | none => exact ⟨fun m s _ hs => absurd hs (by simp [detectRow]),
        fun _ => by simp [detectRow, gtOpt, ltOpt]⟩
    | some s0 =>
      have hs0 : 0 ≤ s0 := hstd s0 (by simp [detectRow])
      constructor
      · rintro m s hm hs
        have hm0 : m0 = m := by simpa [detectRow] using hm
        have hs0m : s0 = s := by simpa [detectRow] using hs
        subst hm0 hs0m
        by_cases h1 : m0 + 2 * s0 < t
        · have h2 : ¬ t < m0 - 2 * s0 := by linarith
          refine ⟨by simp [detectRow], by simp [detectRow], ?_, ?_, ?_, ?_⟩ <;>
            simp [detectRow, gtOpt, ltOpt, h1, h2]
        · by_cases h2 : t < m0 - 2 * s0
          · refine ⟨by simp [detectRow], by simp [detectRow], ?_, ?_, ?_, ?_⟩ <;>
              simp [detectRow, gtOpt, ltOpt, h1, h2]
            linarith
          · refine ⟨by simp [detectRow], by simp [detectRow], ?_, ?_, ?_, ?_⟩ <;>
              simp [detectRow, gtOpt, ltOpt, h1, h2]
            exact ⟨by linarith, by linarith⟩
      · rintro (hm | hs)
        · exact absurd hm (by simp [detectRow])
        · exact absurd hs (by simp [detectRow])

/-- Concrete instantiation of `detect_anomalies_invariant`: temperature
20 with rolling mean 10 and rolling standard deviation 2 is classified
as a positive anomaly. -/
theorem detect_anomalies_invariant_witness :
    (detectRow ⟨20, some 10, some 2⟩).anomaly_type = "positive" := by
  have h := detect_anomalies_invariant [⟨20, some 10, some 2⟩]
    (detectRow ⟨20, some 10, some 2⟩) (by simp [detect_anomalies])
    (by intro s hs
        have h2 : s = 2 := by simpa [detectRow] using hs.symm
        norm_num [h2])
  exact ((h.1 10 2 (by simp [detectRow]) (by simp [detectRow])).2.2.1).mpr
    (by norm_num [detectRow])

/-- Unfolding lemma: on a nonempty city-and-season slice with
standard deviation `s` (not NaN) and mean `m`,
`analyze_temperature_anomaly` returns the verdict record of the source,
with all bound tests on the unrounded values. -/
theorem analyze_some_eq (cityName : String) (t : ℚ) (hist : List ObsRow)
    (month : ℕ) (s m : ℚ)
    (hne : seasonTemps cityName hist month ≠ [])
    (hm : listMean (seasonTemps cityName hist month) = m) :
    analyze_temperature_anomaly cityName t hist month (some s) = Except.ok
      { city := cityName
        current_temperature := t
        season := month_to_season month
        historical_mean := round2 m
        historical_std := some (round2 s)
        normal_range := (some (round2 (m - 2 * s)), some (round2 (m + 2 * s)))
        is_anomaly := decide (t < m - 2 * s) || decide (m + 2 * s < t)
        anomaly_type :=
          if t < m - 2 * s ∨ m + 2 * s < t then
            if t < m - 2 * s then some "negative" else some "positive"
          else none
        temperature_zone :=
          if t < m - s then "Ниже среднего"
          else if m + s < t then "Выше среднего" else "В пределах нормы"
        deviation_from_mean := round2 (t - m) } := by
  have hlen : ¬ (seasonTemps cityName hist month).length = 0 := by
    simpa [List.length_eq_zero] using hne
  simp only [analyze_temperature_anomaly, hlen, if_false, ite_false,
    Option.map_some', ltOpt, gtOpt, hm, Bool.or_eq_true, decide_eq_true_eq,
    reduceIte]

/-- Unfolding lemma: on a nonempty city-and-season slice with NaN
standard deviation (`none`), every bound is NaN, every NaN comparison is
false, so the verdict reports no anomaly and the zone "В пределах нормы". -/
theorem analyze_none_eq (cityName : String) (t : ℚ) (hist : List ObsRow)
    (month : ℕ) (hne : seasonTemps cityName hist month ≠ []) :
    analyze_temperature_anomaly cityName t hist month none = Except.ok
      { city := cityName
        current_temperature := t
        season := month_to_season month
        historical_mean := round2 (listMean (seasonTemps cityName hist month))
        historical_std := none
        normal_range := (none, none)
        is_anomaly := false
        anomaly_type := none
        temperature_zone := "В пределах нормы"
        deviation_from_mean :=
          round2 (t - listMean (seasonTemps cityName hist month)) } := by
  have hlen : ¬ (seasonTemps cityName hist month).length = 0 := by
    simpa [List.length_eq_zero] using hne
  simp [analyze_temperature_anomaly, hlen, ltOpt, gtOpt]

/-- The winter slice of `histX` is the list `[-5, 0, 5]`. -/
theorem histX_temps : seasonTemps "X" histX 1 = [-5, 0, 5] := by decide

/-- The winter mean of `histX` is 0. -/
theorem histX_mean : listMean (seasonTemps "X" histX 1) = 0 := by
  rw [histX_temps]; norm_num [listMean]

/-- The winter sample standard deviation of `histX` is 5
(sample variance 25). -/
theorem histX_std : IsSampleStd (seasonTemps "X" histX 1) (some 5) := by
  have hvar : sampleVar (seasonTemps "X" histX 1) = some 25 := by
    rw [histX_temps]; norm_num [sampleVar, listMean]
  constructor
  · intro h
    rw [hvar] at h
    exact absurd h (by simp)
  · intro v hv
    rw [hvar] at hv
    have hv25 : v = 25 := ((Option.some.injEq _ _).mp hv).symm
    exact ⟨5, by norm_num, by rw [hv25]; norm_num, rfl⟩

/-- The winter sample standard deviation of the one-row table `histOne`
is undefined (NaN). -/
theorem histOne_std : IsSampleStd (seasonTemps "X" histOne 1) none := by
  refine ⟨fun _ => rfl, ?_⟩
  intro v hv
  rw [show sampleVar (seasonTemps "X" histOne 1) = none from by decide] at hv
  cases hv

/-- C2: for `analyze_temperature_anomaly` in a winter month over
historical winter data with mean 0 and sample standard deviation 5:
a reading of 11 is a positive anomaly in zone "Выше среднего"
(above average) with deviation 11; a reading of 2 is no anomaly and in
zone "В пределах нормы" (within normal).  In general the anomaly test
uses the unrounded mean ± 2σ band and the zone test independently uses
the mean ± 1σ band (below average iff reading < mean − σ, above average
iff reading > mean + σ, else within normal). -/
theorem live_scorer_bands (cityName : String) (hist : List ObsRow) (month : ℕ)
    (_hw : month_to_season month = "winter")
    (hne : seasonTemps cityName hist month ≠ [])
    (hmean : listMean (seasonTemps cityName hist month) = 0)
    (_hstd : IsSampleStd (seasonTemps cityName hist month) (some 5)) :
    (∃ v : Verdict,
      analyze_temperature_anomaly cityName 11 hist month (some 5) =
        Except.ok v ∧
      v.is_anomaly = true ∧ v.anomaly_type = some "positive" ∧
      v.temperature_zone = "Выше среднего" ∧ v.deviation_from_mean = 11) ∧
    (∃ v : Verdict,
      analyze_temperature_anomaly cityName 2 hist month (some 5) =
        Except.ok v ∧
      v.is_anomaly = false ∧ v.temperature_zone = "В пределах нормы") ∧
    (∀ t s : ℚ, 0 ≤ s →
      ∃ v : Verdict,
        analyze_temperature_anomaly cityName t hist month (some s) =
          Except.ok v ∧
        (v.is_anomaly = true ↔
          (t < listMean (seasonTemps cityName hist month) - 2 * s ∨
           listMean (seasonTemps cityName hist month) + 2 * s < t)) ∧
        (v.temperature_zone = "Ниже среднего" ↔
          t < listMean (seasonTemps cityName hist month) - s) ∧
        (v.temperature_zone = "Выше среднего" ↔
          listMean (seasonTemps cityName hist month) + s < t) ∧
        (v.temperature_zone = "В пределах нормы" ↔
          (listMean (seasonTemps cityName hist month) - s ≤ t ∧
           t ≤ listMean (seasonTemps cityName hist month) + s))) := by
  refine ⟨?_, ?_, ?_⟩
  · exact ⟨_, analyze_some_eq cityName 11 hist month 5 0 hne hmean,
      by norm_num, by norm_num, by norm_num, by norm_num [round2, roundHalfEven]⟩
  · exact ⟨_, analyze_some_eq cityName 2 hist month 5 0 hne hmean,
      by norm_num, by norm_num⟩
  · intro t s hs
    refine ⟨_, analyze_some_eq cityName t hist month s
      (listMean (seasonTemps cityName hist month)) hne rfl, ?_, ?_, ?_, ?_⟩
    · simp
    · by_cases h3 : t < listMean (seasonTemps cityName hist month) - s <;>
        by_cases h4 : listMean (seasonTemps cityName hist month) + s < t <;>
          simp [h3, h4]
    · by_cases h3 : t < listMean (seasonTemps cityName hist month) - s <;>
        by_cases h4 : listMean (seasonTemps cityName hist month) + s < t <;>
          simp [h3, h4]
      linarith
    · by_cases h3 : t < listMean (seasonTemps cityName hist month) - s <;>
        by_cases h4 : listMean (seasonTemps cityName hist month) + s < t <;>
          simp [h3, h4]
      · linarith
      · exact ⟨by linarith, by linarith⟩

/-- Concrete instantiation of `live_scorer_bands` at the table `histX`
(winter temperatures −5, 0, 5 of city "X": mean 0, sample standard
deviation 5) in month 1. -/
theorem live_scorer_bands_witness :
    month_to_season 1 = "winter" ∧
    seasonTemps "X" histX 1 ≠ [] ∧
    listMean (seasonTemps "X" histX 1) = 0 ∧
    IsSampleStd (seasonTemps "X" histX 1) (some 5) ∧
    (∃ v : Verdict,
      analyze_temperature_anomaly "X" 11 histX 1 (some 5) = Except.ok v ∧
      v.is_anomaly = true ∧ v.anomaly_type = some "positive" ∧
      v.temperature_zone = "Выше среднего" ∧ v.deviation_from_mean = 11) := by
  exact ⟨by decide, by decide, histX_mean, histX_std,
    (live_scorer_bands "X" histX 1 (by decide) (by decide) histX_mean histX_std).1⟩

/-- C10: for every non-error verdict of `analyze_temperature_anomaly`
(with its standard deviation input characterized by `IsSampleStd`):
`is_anomaly` holds iff `anomaly_type` is `"positive"` or `"negative"`
(`anomaly_type` is `none` exactly when `is_anomaly` is false), and a
verdict in zone "В пределах нормы" (within normal, the 1σ band) is never
an anomaly — the 1σ zone band is contained in the 2σ anomaly band. -/
theorem live_verdict_consistency (cityName : String) (t : ℚ)
    (hist : List ObsRow) (month : ℕ) (stdTemp : Option ℚ)
    (hstd : IsSampleStd (seasonTemps cityName hist month) stdTemp)
    (v : Verdict)
    (hv : analyze_temperature_anomaly cityName t hist month stdTemp =
      Except.ok v) :
    (v.is_anomaly = true ↔
      (v.anomaly_type = some "positive" ∨ v.anomaly_type = some "negative")) ∧
    (v.anomaly_type = none ↔ v.is_anomaly = false) ∧
    (v.temperature_zone = "В пределах нормы" → v.is_anomaly = false) := by
  have hne : seasonTemps cityName hist month ≠ [] := by
    intro h
    rw [analyze_temperature_anomaly] at hv
    simp [h] at hv
  cases stdTemp with
  | none =>
    rw [analyze_none_eq cityName t hist month hne] at hv
    injection hv with hv
    subst hv
    simp
  | some s =>
    have hs0 : 0 ≤ s := by
      rcases h : sampleVar (seasonTemps cityName hist month) with _ | var
      · exact absurd (hstd.1 h) (by simp)
      · obtain ⟨r, hr0, -, hsr⟩ := hstd.2 var h
        obtain rfl : s = r := by simpa using hsr
        exact hr0
    rw [analyze_some_eq cityName t hist month s
      (listMean (seasonTemps cityName hist month)) hne rfl] at hv
    injection hv with hv
    subst hv
    refine ⟨?_, ?_, ?_⟩
    · by_cases h1 : t < listMean (seasonTemps cityName hist month) - 2 * s <;>
        by_cases h2 : listMean (seasonTemps cityName hist month) + 2 * s < t <;>
          simp [h1, h2]
    · by_cases h1 : t < listMean (seasonTemps cityName hist month) - 2 * s <;>
        by_cases h2 : listMean (seasonTemps cityName hist month) + 2 * s < t <;>
          simp [h1, h2]
    · intro hz
      by_cases h3 : t < listMean (seasonTemps cityName hist month) - s
      · simp [h3] at hz
      · by_cases h4 : listMean (seasonTemps cityName hist month) + s < t
        · simp [h3, h4] at hz
        · have h1 : ¬ t < listMean (seasonTemps cityName hist month) - 2 * s :=
            by linarith
          have h2 : ¬ listMean (seasonTemps cityName hist month) + 2 * s < t :=
            by linarith
          simp [h1, h2]

/-- Concrete instantiation of `live_verdict_consistency`: a reading of 3
against `histX` (winter mean 0, standard deviation 5) in month 1. -/
theorem live_verdict_consistency_witness :
    IsSampleStd (seasonTemps "X" histX 1) (some 5) ∧
    (∃ v : Verdict,
      analyze_temperature_anomaly "X" 3 histX 1 (some 5) = Except.ok v ∧
      (v.is_anomaly = true ↔
        (v.anomaly_type = some "positive" ∨ v.anomaly_type = some "negative")) ∧
      (v.anomaly_type = none ↔ v.is_anomaly = false) ∧
      (v.temperature_zone = "В пределах нормы" → v.is_anomaly = false)) := by
  have hv := analyze_some_eq "X" 3 histX 1 5 0 (by decide) histX_mean
  exact ⟨histX_std, _, hv,
    live_verdict_consistency "X" 3 histX 1 (some 5) histX_std _ hv⟩

/-- C9 counterexample: the claim is false as stated — the
`current_temperature` field of the verdict is **not** rounded to 2
decimal places: a live reading of 11.123 is returned verbatim as
`current_temperature`, although its 2-decimal rounding is 11.12
(= 278/25); all the other numeric fields are rounded. -/
theorem current_temperature_unrounded_cex :
    IsSampleStd (seasonTemps "X" histX 1) (some 5) ∧
    analyze_temperature_anomaly "X" (11123 / 1000) histX 1 (some 5) =
      Except.ok ⟨"X", 11123 / 1000, "winter", 0, some 5,
        (some (-10), some 10), true, some "positive", "Выше среднего",
        278 / 25⟩ ∧
    round2 (11123 / 1000) = 278 / 25 ∧
    (11123 / 1000 : ℚ) ≠ 278 / 25 := by
  refine ⟨histX_std, ?_, by norm_num [round2, roundHalfEven], by norm_num⟩
  rw [analyze_some_eq "X" (11123 / 1000) histX 1 5 0 (by decide) histX_mean]
  norm_num [round2, roundHalfEven, month_to_season]

/-- C9 amended: every numeric verdict field **except**
`current_temperature` — `historical_mean`, `historical_std`, both ends
of `normal_range`, `deviation_from_mean` — is the 2-decimal rounding of
its full-precision value; `current_temperature` is the reading returned
unrounded; and the anomaly test is computed from the unrounded mean and
standard deviation. -/
theorem rounding_contract (cityName : String) (t : ℚ) (hist : List ObsRow)
    (month : ℕ) (stdTemp : Option ℚ)
    (_hstd : IsSampleStd (seasonTemps cityName hist month) stdTemp)
    (v : Verdict)
    (hv : analyze_temperature_anomaly cityName t hist month stdTemp =
      Except.ok v) :
    v.historical_mean = round2 (listMean (seasonTemps cityName hist month)) ∧
    v.historical_std = stdTemp.map round2 ∧
    v.normal_range =
      ((stdTemp.map
          (fun s => listMean (seasonTemps cityName hist month) - 2 * s)).map
        round2,
       (stdTemp.map
          (fun s => listMean (seasonTemps cityName hist month) + 2 * s)).map
        round2) ∧
    v.deviation_from_mean =
      round2 (t - listMean (seasonTemps cityName hist month)) ∧
    v.current_temperature = t ∧
    (∀ s : ℚ, stdTemp = some s →
      (v.is_anomaly = true ↔
        (t < listMean (seasonTemps cityName hist month) - 2 * s ∨
         listMean (seasonTemps cityName hist month) + 2 * s < t))) := by
  have hne : seasonTemps cityName hist month ≠ [] := by
    intro h
    rw [analyze_temperature_anomaly] at hv
    simp [h] at hv
  cases stdTemp with
  | none =>
    rw [analyze_none_eq cityName t hist month hne] at hv
    injection hv with hv
    subst hv
    simp
  | some s =>
    rw [analyze_some_eq cityName t hist month s
      (listMean (seasonTemps cityName hist month)) hne rfl] at hv
    injection hv with hv
    subst hv
    refine ⟨rfl, rfl, rfl, rfl, rfl, ?_⟩
    rintro s2 hs2
    obtain rfl : s = s2 := by simpa using hs2
    simp

/-- Concrete instantiation of `rounding_contract` at `histX` with a
reading of 11.123. -/
theorem rounding_contract_witness :
    IsSampleStd (seasonTemps "X" histX 1) (some 5) ∧
    (∃ v : Verdict,
      analyze_temperature_anomaly "X" (11123 / 1000) histX 1 (some 5) =
        Except.ok v ∧
      v.deviation_from_mean =
        round2 (11123 / 1000 - listMean (seasonTemps "X" histX 1)) ∧
      v.current_temperature = 11123 / 1000) := by
  have hv := analyze_some_eq "X" (11123 / 1000) histX 1 5 0 (by decide)
    histX_mean
  have h := rounding_contract "X" (11123 / 1000) histX 1 (some 5) histX_std
    _ hv
  exact ⟨histX_std, _, hv, h.2.2.2.1, h.2.2.2.2.1⟩

/-- C5 counterexample: the claim is false as stated — when exactly one
historical row remains for the city and season, the sample standard
deviation is NaN (not 0), the bounds are NaN, and a reading (100) far
from the single historical temperature (0) is **not** classified as
anomalous: `is_anomaly = false`, not `true` as
"std = 0, bounds collapse, any non-equal reading anomalous" predicts. -/
theorem single_sample_cex :
    IsSampleStd (seasonTemps "X" histOne 1) none ∧
    (100 : ℚ) ≠ 0 ∧
    analyze_temperature_anomaly "X" 100 histOne 1 none =
      Except.ok ⟨"X", 100, "winter", 0, none, (none, none), false, none,
        "В пределах нормы", 100⟩ := by
  refine ⟨histOne_std, by norm_num, ?_⟩
  rw [analyze_none_eq "X" 100 histOne 1 (by decide)]
  have h0 : listMean (seasonTemps "X" histOne 1) = 0 := by
    rw [show seasonTemps "X" histOne 1 = [0] from by decide]
    norm_num [listMean]
  rw [h0]
  norm_num [round2, roundHalfEven, month_to_season]

/-- C5 amended: when exactly one historical row remains for the
city-and-season slice, the sample standard deviation is NaN (`none`),
the NaN propagates to the bounds, and the computation completes without
raising, classifying **every** reading as non-anomalous
(`is_anomaly = false`, `anomaly_type = none`, zone "В пределах нормы"). -/
theorem single_sample_not_anomalous (cityName : String) (t : ℚ)
    (hist : List ObsRow) (month : ℕ) (stdTemp : Option ℚ)
    (hone : (seasonTemps cityName hist month).length = 1)
    (hstd : IsSampleStd (seasonTemps cityName hist month) stdTemp) :
    ∃ v : Verdict,
      analyze_temperature_anomaly cityName t hist month stdTemp =
        Except.ok v ∧
      v.historical_std = none ∧ v.is_anomaly = false ∧
      v.anomaly_type = none ∧ v.temperature_zone = "В пределах нормы" := by
  have hvar : sampleVar (seasonTemps cityName hist month) = none := by
    simp [sampleVar, hone]
  have hnone : stdTemp = none := hstd.1 hvar
  subst hnone
  have hne : seasonTemps cityName hist month ≠ [] := by
    intro h
    rw [h] at hone
    simp at hone
  exact ⟨_, analyze_none_eq cityName t hist month hne, rfl, rfl, rfl, rfl⟩

/-- Concrete instantiation of `single_sample_not_anomalous` at the
one-row table `histOne` with a reading of 50. -/
theorem single_sample_not_anomalous_witness :
    (seasonTemps "X" histOne 1).length = 1 ∧
    IsSampleStd (seasonTemps "X" histOne 1) none ∧
    (∃ v : Verdict,
      analyze_temperature_anomaly "X" 50 histOne 1 none = Except.ok v ∧
      v.historical_std = none ∧ v.is_anomaly = false ∧
      v.anomaly_type = none ∧ v.temperature_zone = "В пределах нормы") :=
  ⟨by decide, histOne_std,
    single_sample_not_anomalous "X" 50 histOne 1 none (by decide) histOne_std⟩

/-- C3: the trend class is determined from the slope by the if-chain of
the source with first match winning, which is equivalent to:
"Сильный рост" (strong warming) iff slope > 0.1; "Умеренный рост"
(moderate warming) iff 0.01 < slope ≤ 0.1; "Сильное снижение" (strong
cooling) iff slope < −0.1; "Умеренное снижение" (moderate cooling) iff
−0.1 ≤ slope < −0.01; "Стабильный" (stable) otherwise.  In particular a
slope of exactly 0.1 is "Умеренный рост" (moderate warming), and the
constant yearly series {2000: 15, 2001: 15} yields slope 0 and class
"Стабильный" (stable). -/
theorem trend_thresholds_first_match :
    (∀ s : ℚ,
      (classifyTrend s = "Сильный рост" ↔ 1 / 10 < s) ∧
      (classifyTrend s = "Умеренный рост" ↔ (1 / 100 < s ∧ s ≤ 1 / 10)) ∧
      (classifyTrend s = "Сильное снижение" ↔ s < -(1 / 10)) ∧
      (classifyTrend s = "Умеренное снижение" ↔
        (-(1 / 10) ≤ s ∧ s < -(1 / 100))) ∧
      (classifyTrend s = "Стабильный" ↔
        (-(1 / 100) ≤ s ∧ s ≤ 1 / 100))) ∧
    classifyTrend (1 / 10) = "Умеренный рост" ∧
    calculate_long_term_trends [⟨"B", 2000, 15⟩, ⟨"B", 2001, 15⟩] =
      [⟨"B", 0, "Стабильный", 15, 0⟩] := by
  refine ⟨?_, by norm_num [classifyTrend], ?_⟩
  · intro s
    unfold classifyTrend
    split_ifs with h1 h2 h3 h4 <;>
      refine ⟨?_, ?_, ?_, ?_, ?_⟩ <;> simp <;>
        first
          | linarith
          | (intro hA; linarith)
          | (exact ⟨by linarith, by linarith⟩)
  · norm_num [calculate_long_term_trends, uniqueFirst, cityYearlyMeans,
      sortInt, insertSorted, polyfit1, classifyTrend, maxList, minList,
      listMean]

/-- C4: on the city whose yearly mean temperatures are
{2000: 10, 2001: 11, 2002: 12} (from the daily rows `histYears`),
`calculate_long_term_trends` yields slope exactly 1, class
"Сильный рост" (strong warming), average temperature 11 (the mean of
the yearly means), and temperature range 2 (max − min of the yearly
means) — while the range of the raw daily values is 8, showing the
range is not taken over raw values. -/
theorem trend_synthetic_series :
    calculate_long_term_trends histYears =
      [⟨"A", 1, "Сильный рост", 11, 2⟩] ∧
    maxList (histYears.map (fun r => r.temperature)) -
      minList (histYears.map (fun r => r.temperature)) = 8 := by
  constructor
  · norm_num [calculate_long_term_trends, histYears, uniqueFirst,
      cityYearlyMeans, sortInt, insertSorted, polyfit1, classifyTrend,
      maxList, minList, listMean]
  · norm_num [histYears, maxList, minList]

/-- C6 counterexample: the claim is false as stated — a city with a
single distinct year is **not** excluded from the trend table and no
`InsufficientHistory` failure occurs: `np.polyfit` on the single point
(2000, 15) only warns and returns the minimum-norm solution of the
scaled underdetermined system (slope 15/4000 = 3/800), so the city gets
an ordinary fitted row, classified "Стабильный". -/
theorem single_year_city_cex :
    calculate_long_term_trends [⟨"C", 2000, 15⟩] =
      [⟨"C", 3 / 800, "Стабильный", 15, 0⟩] := by
  norm_num [calculate_long_term_trends, uniqueFirst, cityYearlyMeans,
    sortInt, insertSorted, polyfit1, classifyTrend, maxList, minList,
    listMean]

/-- Membership in `uniqueFirst` with an arbitrary accumulator. -/
theorem uniqueFirst_aux {α : Type} [DecidableEq α] (l : List α)
    (acc : List α) (x : α) :
    x ∈ l.foldl (fun acc x => if x ∈ acc then acc else acc ++ [x]) acc ↔
      x ∈ acc ∨ x ∈ l := by
  induction l generalizing acc with
  | nil => simp
  | cons a l ih =>
    simp only [List.foldl_cons]
    rw [ih]
    by_cases h : a ∈ acc
    · simp only [if_pos h, List.mem_cons]
      constructor
      · rintro (hx | hx)
        · exact Or.inl hx
        · exact Or.inr (Or.inr hx)
      · rintro (hx | rfl | hx)
        · exact Or.inl hx
        · exact Or.inl h
        · exact Or.inr hx
    · simp only [if_neg h, List.mem_append, List.mem_cons,
        List.not_mem_nil, or_false]
      tauto

/-- Lemma: `uniqueFirst` has the same elements as its input. -/
theorem uniqueFirst_mem {α : Type} [DecidableEq α] (l : List α) (x : α) :
    x ∈ uniqueFirst l ↔ x ∈ l := by
  rw [uniqueFirst, uniqueFirst_aux]
  simp

/-- Lemma: `uniqueFirst` of a nonempty constant list is the singleton. -/
theorem uniqueFirst_const {α : Type} [DecidableEq α] (l : List α) (y : α)
    (hall : ∀ x ∈ l, x = y) (hne : l ≠ []) : uniqueFirst l = [y] := by
  have haux : ∀ t : List α, (∀ x ∈ t, x = y) →
      t.foldl (fun acc x => if x ∈ acc then acc else acc ++ [x]) [y] =
        [y] := by
    intro t
    induction t with
    | nil => intro _; rfl
    | cons b t ih =>
      intro hall2
      have hb : b = y := hall2 b (List.mem_cons_self b t)
      subst hb
      simp only [List.foldl_cons, List.mem_singleton, if_pos rfl]
      exact ih (fun x hx => hall2 x (List.mem_cons_of_mem b hx))
  cases l with
  | nil => exact absurd rfl hne
  | cons a l =>
    have ha : a = y := hall a (List.mem_cons_self a l)
    subst ha
    rw [uniqueFirst]
    simp only [List.foldl_cons, List.not_mem_nil, if_neg, List.nil_append]
    exact haux l (fun x hx => hall x (List.mem_cons_of_mem a hx))

/-- C6 amended: a city with a single distinct year is **kept** in the
trend table: when all rows belong to one city `c` and one year `y`, the
output is a single row for `c` whose slope is the minimum-norm
least-squares slope `mean / (2·y)` of the single point `(y, mean)`
(`np.polyfit` warns but does not raise), classified by the usual
thresholds, with temperature range 0. -/
theorem single_year_trend_row (rows : List YearRow) (c : String) (y : ℤ)
    (hc : uniqueFirst (rows.map (fun r => r.city)) = [c])
    (hy : ∀ r ∈ rows, r.year = y) :
    ∃ tr : TrendRow, calculate_long_term_trends rows = [tr] ∧
      tr.city = c ∧
      tr.trend_slope =
        listMean (rows.map (fun r => r.temperature)) / (2 * (y : ℚ)) ∧
      tr.trend_class = classifyTrend tr.trend_slope ∧
      tr.avg_temperature = listMean (rows.map (fun r => r.temperature)) ∧
      tr.temperature_range = 0 := by
  have hcity : ∀ r ∈ rows, r.city = c := by
    intro r hr
    have hmem : r.city ∈ uniqueFirst (rows.map (fun r => r.city)) :=
      (uniqueFirst_mem _ _).mpr (List.mem_map_of_mem _ hr)
    rw [hc] at hmem
    simpa using hmem
  have hne : rows ≠ [] := by
    intro h
    rw [h] at hc
    exact absurd hc (by simp [uniqueFirst])
  have hfilterc : rows.filter (fun r => r.city == c) = rows :=
    List.filter_eq_self.mpr (fun r hr => by simp [hcity r hr])
  have hfiltery : rows.filter (fun r => r.year == y) = rows :=
    List.filter_eq_self.mpr (fun r hr => by simp [hy r hr])
  have hyears : uniqueFirst (rows.map (fun r => r.year)) = [y] := by
    refine uniqueFirst_const _ _ ?_ ?_
    · intro x hx
      obtain ⟨r, hr, rfl⟩ := List.mem_map.mp hx
      exact hy r hr
    · simpa using hne
  have hpts : cityYearlyMeans rows c =
      [((y : ℚ), listMean (rows.map (fun r => r.temperature)))] := by
    rw [cityYearlyMeans]
    simp only [hfilterc, hyears, sortInt, List.foldr_cons, List.foldr_nil,
      insertSorted, List.map_cons, List.map_nil, hfiltery]
  have hcalc : calculate_long_term_trends rows =
      [{ city := c
         trend_slope := (polyfit1 (cityYearlyMeans rows c)).1
         trend_class := classifyTrend (polyfit1 (cityYearlyMeans rows c)).1
         avg_temperature := listMean ((cityYearlyMeans rows c).map Prod.snd)
         temperature_range :=
           maxList ((cityYearlyMeans rows c).map Prod.snd) -
             minList ((cityYearlyMeans rows c).map Prod.snd) }] := by
    rw [calculate_long_term_trends, hc]
    simp only [List.map_cons, List.map_nil]
  refine ⟨_, hcalc, rfl, ?_, rfl, ?_, ?_⟩
  · rw [hpts]
    simp [polyfit1]
  · rw [hpts]
    simp [listMean]
  · rw [hpts]
    simp [maxList, minList]

/-- Concrete instantiation of `single_year_trend_row`: two daily rows of
city "C", both in year 2000. -/
theorem single_year_trend_row_witness :
    uniqueFirst (([⟨"C", 2000, 15⟩, ⟨"C", 2000, 17⟩] : List YearRow).map
      (fun r => r.city)) = ["C"] ∧
    (∃ tr : TrendRow,
      calculate_long_term_trends [⟨"C", 2000, 15⟩, ⟨"C", 2000, 17⟩] =
        [tr] ∧
      tr.city = "C" ∧
      tr.trend_slope =
        listMean (([⟨"C", 2000, 15⟩, ⟨"C", 2000, 17⟩] : List YearRow).map
          (fun r => r.temperature)) / (2 * ((2000 : ℤ) : ℚ)) ∧
      tr.trend_class = classifyTrend tr.trend_slope ∧
      tr.avg_temperature =
        listMean (([⟨"C", 2000, 15⟩, ⟨"C", 2000, 17⟩] : List YearRow).map
          (fun r => r.temperature)) ∧
      tr.temperature_range = 0) :=
  ⟨by decide,
    single_year_trend_row [⟨"C", 2000, 15⟩, ⟨"C", 2000, 17⟩] "C" 2000
      (by decide) (by decide)⟩

/-- C7 counterexample: the claim is false as stated — a month outside
1..12 does **not** fail with `InvalidMonth`: the dictionary lookup
`month_to_season.get(month, "winter")` of the source returns the default season
"winter" for months 13 and 0. -/
theorem month_out_of_range_cex :
    month_to_season 13 = "winter" ∧ month_to_season 0 = "winter" := by
  decide

/-- C7 amended: every month 1..12 maps per the fixed mapping
{12,1,2 → winter; 3,4,5 → spring; 6,7,8 → summer; 9,10,11 → autumn}
(so month 1 gives winter and month 7 gives summer), and every month
outside 1..12 yields the dictionary default "winter" rather than an
error. -/
theorem season_mapping (m : ℕ) :
    ((m = 12 ∨ m = 1 ∨ m = 2) → month_to_season m = "winter") ∧
    ((m = 3 ∨ m = 4 ∨ m = 5) → month_to_season m = "spring") ∧
    ((m = 6 ∨ m = 7 ∨ m = 8) → month_to_season m = "summer") ∧
    ((m = 9 ∨ m = 10 ∨ m = 11) → month_to_season m = "autumn") ∧
    (¬(1 ≤ m ∧ m ≤ 12) → month_to_season m = "winter") := by
  refine ⟨?_, ?_, ?_, ?_, ?_⟩
  · rintro (rfl | rfl | rfl) <;> decide
  · rintro (rfl | rfl | rfl) <;> decide
  · rintro (rfl | rfl | rfl) <;> decide
  · rintro (rfl | rfl | rfl) <;> decide
  · intro h
    have h1 : m ≠ 1 := by omega
    have h2 : m ≠ 2 := by omega
    have h3 : m ≠ 3 := by omega
    have h4 : m ≠ 4 := by omega
    have h5 : m ≠ 5 := by omega
    have h6 : m ≠ 6 := by omega
    have h7 : m ≠ 7 := by omega
    have h8 : m ≠ 8 := by omega
    have h9 : m ≠ 9 := by omega
    have h10 : m ≠ 10 := by omega
    have h11 : m ≠ 11 := by omega
    have h12 : m ≠ 12 := by omega
    simp [month_to_season, h1, h2, h3, h4, h5, h6, h7, h8, h9, h10, h11,
      h12]

/-- Concrete instantiation of `season_mapping`: month 1 is winter,
month 7 is summer, and the out-of-range month 14 defaults to winter. -/
theorem season_mapping_witness :
    month_to_season 1 = "winter" ∧ month_to_season 7 = "summer" ∧
    month_to_season 14 = "winter" :=
  ⟨(season_mapping 1).1 (by decide), (season_mapping 7).2.2.1 (by decide),
   (season_mapping 14).2.2.2.2 (by decide)⟩

/-- A defined rolling window is exactly `window` observations long. -/
theorem rollingSlice_length (xs : List ℚ) (w i : ℕ) (sl : List ℚ)
    (h : rollingSlice xs w i = some sl) : sl.length = w := by
  rw [rollingSlice] at h
  by_cases hc : w ≤ i + 1 + (w - 1) / 2 ∧ i + 1 + (w - 1) / 2 ≤ xs.length
  · simp only [if_pos hc] at h
    injection h with h
    subst h
    rw [List.length_take, List.length_drop]
    omega
  · simp [hc] at h

/-- The rolling window is undefined exactly when it does not fit. -/
theorem rollingSlice_none_iff (xs : List ℚ) (w i : ℕ) :
    rollingSlice xs w i = none ↔
      ¬(w ≤ i + 1 + (w - 1) / 2 ∧ i + 1 + (w - 1) / 2 ≤ xs.length) := by
  rw [rollingSlice]
  by_cases hc : w ≤ i + 1 + (w - 1) / 2 ∧ i + 1 + (w - 1) / 2 ≤ xs.length <;>
    simp [hc]

/-- C8 counterexample: the claim is false as stated for `window = 1` —
at position 1 of the 3-element series `[0, 0, 0]`, which is not closer
to either boundary than half the window width (both distances are
1 ≥ 1/2, i.e. `¬(2·1 < 1 ∨ 2·(3−1−1) < 1)`), the rolling standard
deviation is still NaN (`none`): every complete window holds a single
observation and the sample statistic with `ddof = 1` of one observation
is undefined, while the rolling mean at the same position is defined. -/
theorem rolling_window_one_cex :
    rollingVarAt [0, 0, 0] 1 1 = none ∧
    rollingMeanAt [0, 0, 0] 1 1 = some 0 ∧
    ¬(2 * 1 < 1 ∨ 2 * (3 - 1 - 1) < 1) := by
  refine ⟨by decide, ?_, by decide⟩
  rw [rollingMeanAt, show rollingSlice [0, 0, 0] 1 1 = some [0] from
    by decide]
  norm_num [listMean]

/-- C8 amended: for every `window > 0`, a single-city series shorter
than the window has NaN rolling mean and standard deviation at every
position (and the computation does not fail); for `window ≥ 2` the NaN
positions of both rolling statistics lie only in the leading/trailing
edges closer to a boundary than half the window width
(`2·i < w` or `2·(n−1−i) < w`); for `window = 1` the rolling standard
deviation is NaN at **every** position (single-observation sample
statistic), an exception to the claimed edge-only rule. -/
theorem rolling_edge_nulls (xs : List ℚ) (w i : ℕ) (hw : 0 < w) :
    (xs.length < w →
      rollingMeanAt xs w i = none ∧ rollingVarAt xs w i = none) ∧
    (rollingMeanAt xs w i = none →
      2 * i < w ∨ 2 * (xs.length - 1 - i) < w) ∧
    (2 ≤ w → rollingVarAt xs w i = none →
      2 * i < w ∨ 2 * (xs.length - 1 - i) < w) ∧
    (w = 1 → rollingVarAt xs w i = none) := by
  refine ⟨?_, ?_, ?_, ?_⟩
  · intro hshort
    have hc : ¬(w ≤ i + 1 + (w - 1) / 2 ∧
        i + 1 + (w - 1) / 2 ≤ xs.length) := by omega
    rw [rollingMeanAt, rollingVarAt, (rollingSlice_none_iff xs w i).mpr hc]
    exact ⟨rfl, rfl⟩
  · intro h
    have hsl : rollingSlice xs w i = none := by
      rcases hopt : rollingSlice xs w i with _ | sl
      · rfl
      · rw [rollingMeanAt, hopt] at h
        simp at h
    have hc := (rollingSlice_none_iff xs w i).mp hsl
    omega
  · intro hw2 h
    rcases hopt : rollingSlice xs w i with _ | sl
    · have hc := (rollingSlice_none_iff xs w i).mp hopt
      omega
    · have hlen : sl.length = w := rollingSlice_length xs w i sl hopt
      rw [rollingVarAt, hopt] at h
      simp [sampleVar, hlen, hw2] at h
  · rintro rfl
    rcases hopt : rollingSlice xs 1 i with _ | sl
    · rw [rollingVarAt, hopt]
      rfl
    · have hlen : sl.length = 1 := rollingSlice_length xs 1 i sl hopt
      rw [rollingVarAt, hopt]
      simp [sampleVar, hlen]

/-- Concrete instantiation of `rolling_edge_nulls`: the default window
30 over a 4-element series at position 0 — the series is shorter than
the window, so the rolling statistics are NaN there. -/
theorem rolling_edge_nulls_witness :
    0 < 30 ∧
    ((([1, 2, 3, 4] : List ℚ).length < 30 →
      rollingMeanAt [1, 2, 3, 4] 30 0 = none ∧
      rollingVarAt [1, 2, 3, 4] 30 0 = none) ∧
    (rollingMeanAt [1, 2, 3, 4] 30 0 = none →
      2 * 0 < 30 ∨ 2 * (([1, 2, 3, 4] : List ℚ).length - 1 - 0) < 30) ∧
    (2 ≤ 30 → rollingVarAt [1, 2, 3, 4] 30 0 = none →
      2 * 0 < 30 ∨ 2 * (([1, 2, 3, 4] : List ℚ).length - 1 - 0) < 30) ∧
    (30 = 1 → rollingVarAt [1, 2, 3, 4] 30 0 = none)) :=
  ⟨by decide, rolling_edge_nulls [1, 2, 3, 4] 30 0 (by decide)⟩

end TempAnalysis
